import Mathlib

/-!
Shallow embedding of `django_amazon_ses/backends/boto.py` — an email backend
that sends Django `EmailMessage` objects through the Amazon SES
`send_raw_email` API.

External collaborators (Django's `sanitize_address`, the message
serialization `message().as_bytes(linesep)`, and the boto3 SES client)
are black boxes to the backend; they are modelled as function parameters
collected in an `Env`, each returning `Except PyError _` since each may
raise a Python exception.  The observable actions of the backend (the
`pre_send` / `post_send` signals and the remote `send_raw_email` call)
are recorded in an event trace so that the theorems can speak about how
many times each fired and with what payload.
-/

/-- A Python exception, as the backend can distinguish them: the
`botocore.exceptions.ClientError` caught by the `except` clause, a
`KeyError` from a dict lookup, or any other exception type. -/
inductive PyError where
  | clientError
  | keyError (key : String)
  | other (name : String)
deriving DecidableEq, Repr

/-- A Django `EmailMessage` as the backend reads it: the sender address,
the three recipient lists and the encoding.  `recipients()` in Django
returns `to + cc + bcc`. -/
structure Msg where
  from_email : String
  «to» : List String
  cc : List String
  bcc : List String
  encoding : String
deriving DecidableEq, Repr

/-- Django's `EmailMessage.recipients()`: the concatenation of the
`to`, `cc` and `bcc` lists. -/
def Msg.recipients (m : Msg) : List String :=
  m.«to» ++ m.cc ++ m.bcc

/-- The observable actions of the backend: a `pre_send` signal carrying
the message, a `send_raw_email` remote call carrying the sanitized source,
the sanitized destinations and the raw serialized bytes, and a `post_send`
signal carrying the message and the remote-assigned message id. -/
inductive Event where
  | preSend (m : Msg)
  | remoteCall (source : String) (destinations : List String) (raw : String)
  | postSend (m : Msg) (message_id : String)
deriving DecidableEq, Repr

/-- The external collaborators of the backend.  `sanitize` is Django's
`sanitize_address(addr, encoding)`; `serialize` is
`email_message.message().as_bytes(linesep)` — the linesep string is the
second argument; `send_raw_email` is the SES client call, returning the
response dict (modelled as an association list) or raising. -/
structure Env where
  sanitize : String → String → Except PyError String
  serialize : Msg → String → Except PyError String
  send_raw_email : String → List String → String → Except PyError (List (String × String))

/-- The body of `EmailBackend._send` after the unconditional `pre_send`
signal: the recipient check, address sanitization, serialization with
CRLF line separators, the remote call inside the `try`, the
`result['MessageId']` lookup and the `post_send` signal, and the
`except ClientError` clause that re-raises unless `fail_silently`.
Returns the events fired after `pre_send` plus the outcome: `.ok b` for
a normal return of `b`, `.error e` for an escaping exception. -/
def sendRest (env : Env) (fail_silently : Bool) (m : Msg) :
    List Event × Except PyError Bool :=
  if m.recipients = [] then ([], .ok false)
  else
    match env.sanitize m.from_email m.encoding with
    | .error e => ([], .error e)
    | .ok from_email =>
    match m.recipients.mapM (fun addr => env.sanitize addr m.encoding) with
    | .error e => ([], .error e)
    | .ok recipients =>
    match env.serialize m "\r\n" with
    | .error e => ([], .error e)
    | .ok message =>
    match env.send_raw_email from_email recipients message with
    | .ok result =>
      match result.lookup "MessageId" with
      | some message_id =>
        ([Event.remoteCall from_email recipients message,
          Event.postSend m message_id], .ok true)
      | none =>
        ([Event.remoteCall from_email recipients message],
         .error (PyError.keyError "MessageId"))
    | .error PyError.clientError =>
      if fail_silently then
        ([Event.remoteCall from_email recipients message], .ok false)
      else
        ([Event.remoteCall from_email recipients message],
         .error PyError.clientError)
    | .error e =>
      ([Event.remoteCall from_email recipients message], .error e)

/-- `EmailBackend._send(email_message)`: fires `pre_send` unconditionally,
then runs the rest of the per-message send path. -/
def _send (env : Env) (fail_silently : Bool) (m : Msg) :
    List Event × Except PyError Bool :=
  (Event.preSend m :: (sendRest env fail_silently m).1,
   (sendRest env fail_silently m).2)

/-- The `for` loop of `EmailBackend.send_messages`: calls `_send` on each
message in order, counting the ones for which `_send` returned `True`;
an exception escaping `_send` aborts the loop (the remaining messages
are not processed and no count is produced). -/
def sendLoop (env : Env) (fail_silently : Bool) :
    List Msg → List Event × Except PyError Nat
  | [] => ([], .ok 0)
  | m :: rest =>
    match _send env fail_silently m with
    | (evs, .error e) => (evs, .error e)
    | (evs, .ok b) =>
      match sendLoop env fail_silently rest with
      | (evs2, .error e) => (evs ++ evs2, .error e)
      | (evs2, .ok n) => (evs ++ evs2, .ok ((if b then 1 else 0) + n))

/-- `EmailBackend.send_messages(email_messages)`: on an empty list the
guard `if not email_messages: return` returns `None` (modelled as
`.ok none`); otherwise it runs the loop and returns the integer count
(`.ok (some n)`), or lets an exception escape (`.error e`). -/
def send_messages (env : Env) (fail_silently : Bool) (msgs : List Msg) :
    List Event × Except PyError (Option Nat) :=
  match msgs with
  | [] => ([], Except.ok none)
  | m :: rest =>
    match sendLoop env fail_silently (m :: rest) with
    | (evs, .error e) => (evs, Except.error e)
    | (evs, .ok n) => (evs, Except.ok (some n))

/-- Django settings as the backend reads them:
`DJANGO_AMAZON_SES_REGION` (read with `getattr(..., default)`, so it may
be absent), `AWS_ACCESS_KEY_ID` and `AWS_SECRET_ACCESS_KEY`. -/
structure Settings where
  django_amazon_ses_region : Option String
  aws_access_key_id : String
  aws_secret_access_key : String
deriving DecidableEq, Repr

/-- The region resolution in `EmailBackend.__init__`: if the constructor
argument `region_name` is `None`, fall back to
`getattr(settings, 'DJANGO_AMAZON_SES_REGION', 'us-east-1')`. -/
def resolve_region (region_name : Option String) (s : Settings) : String :=
  match region_name with
  | some r => r
  | none => s.django_amazon_ses_region.getD "us-east-1"

/-- The handle returned by `boto3.client(...)`. -/
abbrev ClientHandle := String

/-- The observable action of `__init__`: one `boto3.client` call with the
service name, the resolved region and the credentials from settings. -/
inductive InitEvent where
  | createClient (service : String) (region : String)
      (access_key : String) (secret_key : String)
deriving DecidableEq, Repr

/-- The constructed backend: the SES client handle stored in `self.conn`
and the `fail_silently` flag stored by the base class. -/
structure Backend where
  conn : ClientHandle
  fail_silently : Bool
deriving DecidableEq, Repr

/-- `EmailBackend.__init__`: resolves the region, then calls
`boto3.client('ses', region_name=..., aws_access_key_id=...,
aws_secret_access_key=...)` exactly once; `mkClient` is the external
`boto3.client` (region, access key, secret key ↦ handle or exception).
Returns the trace of client-creation calls and either the constructed
backend or the escaping exception — `fail_silently` is not consulted. -/
def emailBackendInit (mkClient : String → String → String → Except PyError ClientHandle)
    (region_name : Option String) (s : Settings) (fail_silently : Bool) :
    List InitEvent × Except PyError Backend :=
  let region := resolve_region region_name s
  ([InitEvent.createClient "ses" region
      s.aws_access_key_id s.aws_secret_access_key],
   match mkClient region s.aws_access_key_id s.aws_secret_access_key with
   | .error e => .error e
   | .ok c => .ok { conn := c, fail_silently := fail_silently })

/-! ### Concrete test fixtures used by witnesses and counterexamples -/

/-- A message with two recipients. -/
def msgA : Msg :=
  { from_email := "alice@example.com"
    «to» := ["bob@example.com", "carol@example.com"]
    cc := []
    bcc := []
    encoding := "utf-8" }

/-- A message with zero recipients. -/
def msgB : Msg :=
  { from_email := "alice@example.com"
    «to» := []
    cc := []
    bcc := []
    encoding := "utf-8" }

/-- An environment where everything succeeds and SES returns
message id "abc123". -/
def testEnv : Env :=
  { sanitize := fun addr _ => .ok addr
    serialize := fun m linesep => .ok (m.from_email ++ linesep ++ "body")
    send_raw_email := fun _ _ _ => .ok [("MessageId", "abc123")] }

/-- Like `testEnv` but the SES call raises `ClientError`. -/
def envClientErr : Env :=
  { testEnv with send_raw_email := fun _ _ _ => .error PyError.clientError }

/-- Like `testEnv` but the SES response lacks the `MessageId` key. -/
def envNoMsgId : Env :=
  { testEnv with send_raw_email := fun _ _ _ => .ok [("RequestId", "r-1")] }

/-- Like `testEnv` but `sanitize_address` raises a `ValueError`. -/
def envBadSanitize : Env :=
  { testEnv with sanitize := fun _ _ => .error (PyError.other "ValueError") }

/-- A message addressed to the one recipient `envSelective` rejects. -/
def msgC : Msg :=
  { from_email := "alice@example.com"
    «to» := ["dave@example.com"]
    cc := []
    bcc := []
    encoding := "utf-8" }

/-- An SES stand-in that raises `ClientError` exactly when the
destination list contains `msgC`'s recipient. -/
def selectiveRemote (_source : String) (dests : List String) (_raw : String) :
    Except PyError (List (String × String)) :=
  if dests.contains "dave@example.com" then .error PyError.clientError
  else .ok [("MessageId", "abc123")]

/-- Like `testEnv` but using `selectiveRemote` for the SES call. -/
def envSelective : Env :=
  { testEnv with send_raw_email := selectiveRemote }

/-- A `boto3.client` stand-in that always succeeds. -/
def mkClientOk : String → String → String → Except PyError ClientHandle :=
  fun _ _ _ => .ok "ses-client"

/-- A `boto3.client` stand-in that raises a configuration error. -/
def mkClientErr : String → String → String → Except PyError ClientHandle :=
  fun _ _ _ => .error (PyError.other "NoRegionError")

/-- Concrete Django settings for the construction witnesses. -/
def testSettings : Settings :=
  { django_amazon_ses_region := some "us-west-2"
    aws_access_key_id := "AKIA-TEST"
    aws_secret_access_key := "SECRET-TEST" }

/-! ### Helper lemmas -/

theorem sendRest_success (env : Env) (fail_silently : Bool) (m : Msg)
    (f : String) (rs : List String) (raw : String)
    (result : List (String × String)) (mid : String)
    (h1 : m.recipients ≠ [])
    (h2 : env.sanitize m.from_email m.encoding = .ok f)
    (h3 : m.recipients.mapM (fun addr => env.sanitize addr m.encoding) = .ok rs)
    (h4 : env.serialize m "\r\n" = .ok raw)
    (h5 : env.send_raw_email f rs raw = .ok result)
    (h6 : result.lookup "MessageId" = some mid) :
    sendRest env fail_silently m =
      ([Event.remoteCall f rs raw, Event.postSend m mid], .ok true) := by
  unfold sendRest
  rw [if_neg h1]
  simp only [h2, h3, h4, h5, h6]

theorem sendRest_clientError (env : Env) (fail_silently : Bool) (m : Msg)
    (f : String) (rs : List String) (raw : String)
    (h1 : m.recipients ≠ [])
    (h2 : env.sanitize m.from_email m.encoding = .ok f)
    (h3 : m.recipients.mapM (fun addr => env.sanitize addr m.encoding) = .ok rs)
    (h4 : env.serialize m "\r\n" = .ok raw)
    (h5 : env.send_raw_email f rs raw = .error PyError.clientError) :
    sendRest env fail_silently m =
      ([Event.remoteCall f rs raw],
       if fail_silently then Except.ok false else Except.error PyError.clientError) := by
  unfold sendRest
  rw [if_neg h1]
  simp only [h2, h3, h4, h5]
  cases fail_silently <;> rfl

theorem sendRest_keyError (env : Env) (fail_silently : Bool) (m : Msg)
    (f : String) (rs : List String) (raw : String)
    (result : List (String × String))
    (h1 : m.recipients ≠ [])
    (h2 : env.sanitize m.from_email m.encoding = .ok f)
    (h3 : m.recipients.mapM (fun addr => env.sanitize addr m.encoding) = .ok rs)
    (h4 : env.serialize m "\r\n" = .ok raw)
    (h5 : env.send_raw_email f rs raw = .ok result)
    (h6 : result.lookup "MessageId" = none) :
    sendRest env fail_silently m =
      ([Event.remoteCall f rs raw], .error (PyError.keyError "MessageId")) := by
  unfold sendRest
  rw [if_neg h1]
  simp only [h2, h3, h4, h5, h6]

theorem sendRest_noRecipients (env : Env) (fail_silently : Bool) (m : Msg)
    (h : m.recipients = []) :
    sendRest env fail_silently m = ([], .ok false) := by
  unfold sendRest
  rw [if_pos h]

theorem sendLoop_append_ok (env : Env) (fail_silently : Bool)
    (xs ys : List Msg) (e1 : List Event) (n1 : Nat) (e2 : List Event) (n2 : Nat)
    (h1 : sendLoop env fail_silently xs = (e1, .ok n1))
    (h2 : sendLoop env fail_silently ys = (e2, .ok n2)) :
    sendLoop env fail_silently (xs ++ ys) = (e1 ++ e2, .ok (n1 + n2)) := by
  induction xs generalizing e1 n1 with
  | nil =>
    simp only [sendLoop] at h1
    obtain ⟨rfl, h⟩ := Prod.mk.injEq .. ▸ h1
    obtain rfl : 0 = n1 := by exact Except.ok.inj h
    simpa using h2
  | cons m xs ih =>
    simp only [sendLoop] at h1 ⊢
    cases hm : _send env fail_silently m with
    | mk evs r =>
      rw [hm] at h1
      cases r with
      | error e => simp at h1
      | ok b =>
        cases hl : sendLoop env fail_silently xs with
        | mk evs2 r2 =>
          rw [hl] at h1
          cases r2 with
          | error e => simp at h1
          | ok n =>
            simp only [Prod.mk.injEq, Except.ok.injEq] at h1
            obtain ⟨rfl, rfl⟩ := h1
            simp only [List.append_eq]
            rw [ih evs2 n hl]
            simp [Nat.add_assoc]

theorem sendLoop_append_error (env : Env) (fail_silently : Bool)
    (xs ys : List Msg) (e1 : List Event) (n1 : Nat) (e2 : List Event) (err : PyError)
    (h1 : sendLoop env fail_silently xs = (e1, .ok n1))
    (h2 : sendLoop env fail_silently ys = (e2, .error err)) :
    sendLoop env fail_silently (xs ++ ys) = (e1 ++ e2, .error err) := by
  induction xs generalizing e1 n1 with
  | nil =>
    simp only [sendLoop] at h1
    obtain ⟨rfl, h⟩ := Prod.mk.injEq .. ▸ h1
    simpa using h2
  | cons m xs ih =>
    simp only [sendLoop] at h1 ⊢
    cases hm : _send env fail_silently m with
    | mk evs r =>
      rw [hm] at h1
      cases r with
      | error e => simp at h1
      | ok b =>
        cases hl : sendLoop env fail_silently xs with
        | mk evs2 r2 =>
          rw [hl] at h1
          cases r2 with
          | error e => simp at h1
          | ok n =>
            simp only [Prod.mk.injEq, Except.ok.injEq] at h1
            obtain ⟨rfl, rfl⟩ := h1
            simp only [List.append_eq]
            rw [ih evs2 n hl]
            simp

theorem sendRest_sanitizeError (env : Env) (fail_silently : Bool) (m : Msg)
    (e : PyError)
    (h1 : m.recipients ≠ [])
    (h2 : env.sanitize m.from_email m.encoding = .error e) :
    sendRest env fail_silently m = ([], .error e) := by
  unfold sendRest
  rw [if_neg h1]
  simp only [h2]

theorem sendRest_recipientError (env : Env) (fail_silently : Bool) (m : Msg)
    (f : String) (e : PyError)
    (h1 : m.recipients ≠ [])
    (h2 : env.sanitize m.from_email m.encoding = .ok f)
    (h3 : m.recipients.mapM (fun addr => env.sanitize addr m.encoding) = .error e) :
    sendRest env fail_silently m = ([], .error e) := by
  unfold sendRest
  rw [if_neg h1]
  simp only [h2, h3]

theorem sendRest_serializeError (env : Env) (fail_silently : Bool) (m : Msg)
    (f : String) (rs : List String) (e : PyError)
    (h1 : m.recipients ≠ [])
    (h2 : env.sanitize m.from_email m.encoding = .ok f)
    (h3 : m.recipients.mapM (fun addr => env.sanitize addr m.encoding) = .ok rs)
    (h4 : env.serialize m "\r\n" = .error e) :
    sendRest env fail_silently m = ([], .error e) := by
  unfold sendRest
  rw [if_neg h1]
  simp only [h2, h3, h4]

theorem sendRest_remoteOtherError (env : Env) (fail_silently : Bool) (m : Msg)
    (f : String) (rs : List String) (raw : String) (e : PyError)
    (h1 : m.recipients ≠ [])
    (h2 : env.sanitize m.from_email m.encoding = .ok f)
    (h3 : m.recipients.mapM (fun addr => env.sanitize addr m.encoding) = .ok rs)
    (h4 : env.serialize m "\r\n" = .ok raw)
    (h5 : env.send_raw_email f rs raw = .error e)
    (he : e ≠ PyError.clientError) :
    sendRest env fail_silently m =
      ([Event.remoteCall f rs raw], .error e) := by
  cases e with
  | clientError => exact absurd rfl he
  | keyError k =>
    unfold sendRest
    rw [if_neg h1]
    simp only [h2, h3, h4, h5]
  | other s =>
    unfold sendRest
    rw [if_neg h1]
    simp only [h2, h3, h4, h5]

theorem sendLoop_cons_ok (env : Env) (fail_silently : Bool) (m : Msg)
    (rest : List Msg) (evs evs2 : List Event) (b : Bool) (n : Nat)
    (h : _send env fail_silently m = (evs, .ok b))
    (hrest : sendLoop env fail_silently rest = (evs2, .ok n)) :
    sendLoop env fail_silently (m :: rest) =
      (evs ++ evs2, .ok ((if b then 1 else 0) + n)) := by
  simp only [sendLoop, h, hrest]

theorem sendLoop_cons_error (env : Env) (fail_silently : Bool) (m : Msg)
    (rest : List Msg) (evs : List Event) (e : PyError)
    (h : _send env fail_silently m = (evs, .error e)) :
    sendLoop env fail_silently (m :: rest) = (evs, .error e) := by
  simp only [sendLoop, h]

theorem sendLoop_singleton_ok (env : Env) (fail_silently : Bool) (m : Msg)
    (evs : List Event) (b : Bool)
    (h : _send env fail_silently m = (evs, .ok b)) :
    sendLoop env fail_silently [m] = (evs, .ok (if b then 1 else 0)) := by
  simp only [sendLoop, h, List.append_nil, Nat.add_zero]

theorem send_messages_eq_of_loop_ok (env : Env) (fail_silently : Bool)
    (msgs : List Msg) (evs : List Event) (n : Nat)
    (hne : msgs ≠ [])
    (h : sendLoop env fail_silently msgs = (evs, .ok n)) :
    send_messages env fail_silently msgs = (evs, .ok (some n)) := by
  cases msgs with
  | nil => exact absurd rfl hne
  | cons a rest => simp only [send_messages, h]

theorem send_messages_eq_of_loop_error (env : Env) (fail_silently : Bool)
    (msgs : List Msg) (evs : List Event) (err : PyError)
    (hne : msgs ≠ [])
    (h : sendLoop env fail_silently msgs = (evs, .error err)) :
    send_messages env fail_silently msgs = (evs, .error err) := by
  cases msgs with
  | nil => exact absurd rfl hne
  | cons a rest => simp only [send_messages, h]

/-! ### Claims -/

/-- C1: For every message with at least one resolved recipient whose remote
call succeeds, `_send` makes exactly one remote `send_raw_email` call whose
raw payload is the message serialized with CRLF line separators, fires
exactly one post-send notification carrying the message identifier returned
by the remote call, returns true, and the message counts toward the integer
total returned by `send_messages`. -/
theorem c1_successful_send (env : Env) (fail_silently : Bool) (m : Msg)
    (f : String) (rs : List String) (raw : String)
    (result : List (String × String)) (mid : String)
    (h1 : m.recipients ≠ [])
    (h2 : env.sanitize m.from_email m.encoding = .ok f)
    (h3 : m.recipients.mapM (fun addr => env.sanitize addr m.encoding) = .ok rs)
    (h4 : env.serialize m "\r\n" = .ok raw)
    (h5 : env.send_raw_email f rs raw = .ok result)
    (h6 : result.lookup "MessageId" = some mid) :
    _send env fail_silently m =
      ([Event.preSend m, Event.remoteCall f rs raw, Event.postSend m mid],
       .ok true)
    ∧ ∀ (ms : List Msg) (evs : List Event) (n : Nat),
        sendLoop env fail_silently ms = (evs, .ok n) →
        send_messages env fail_silently (ms ++ [m]) =
          (evs ++ [Event.preSend m, Event.remoteCall f rs raw,
                   Event.postSend m mid],
           .ok (some (n + 1))) := by
  have hsend : _send env fail_silently m =
      ([Event.preSend m, Event.remoteCall f rs raw, Event.postSend m mid],
       .ok true) := by
    unfold _send
    rw [sendRest_success env fail_silently m f rs raw result mid h1 h2 h3 h4 h5 h6]
  refine ⟨hsend, ?_⟩
  intro ms evs n hms
  have hone : sendLoop env fail_silently [m] =
      ([Event.preSend m, Event.remoteCall f rs raw, Event.postSend m mid],
       .ok 1) := by
    rw [sendLoop_singleton_ok env fail_silently m _ true hsend]
    rfl
  have happ := sendLoop_append_ok env fail_silently ms [m] evs n _ 1 hms hone
  exact send_messages_eq_of_loop_ok env fail_silently (ms ++ [m]) _ _
    (by simp) happ

/-- Witness for C1 at a concrete batch: the two-recipient message `msgA`
appended after the recipient-less `msgB` yields one remote call with the
CRLF-serialized payload, one post-send with id "abc123", and a count of 1. -/
theorem c1_successful_send_witness :
    send_messages testEnv true ([msgB] ++ [msgA]) =
      ([Event.preSend msgB] ++
       [Event.preSend msgA,
        Event.remoteCall "alice@example.com"
          ["bob@example.com", "carol@example.com"]
          ("alice@example.com" ++ "\r\n" ++ "body"),
        Event.postSend msgA "abc123"],
       .ok (some (0 + 1))) :=
  (c1_successful_send testEnv true msgA "alice@example.com"
      ["bob@example.com", "carol@example.com"]
      ("alice@example.com" ++ "\r\n" ++ "body")
      [("MessageId", "abc123")] "abc123"
      (by decide) rfl rfl rfl rfl rfl).2
    [msgB] [Event.preSend msgB] 0 rfl

/-- C2: When `fail_silently` is false, a remote client error raised while
sending message k of a batch of N propagates immediately out of
`send_messages`; messages k+1 through N are never attempted (the trace is
independent of them and contains none of their events) and `send_messages`
returns no count (the outcome is the escaping `ClientError`). -/
theorem c2_fail_silently_false_aborts (env : Env) (m : Msg)
    (f : String) (rs : List String) (raw : String)
    (ms1 ms2 : List Msg) (evs1 : List Event) (n1 : Nat)
    (h1 : m.recipients ≠ [])
    (h2 : env.sanitize m.from_email m.encoding = .ok f)
    (h3 : m.recipients.mapM (fun addr => env.sanitize addr m.encoding) = .ok rs)
    (h4 : env.serialize m "\r\n" = .ok raw)
    (h5 : env.send_raw_email f rs raw = .error PyError.clientError)
    (hms1 : sendLoop env false ms1 = (evs1, .ok n1)) :
    send_messages env false (ms1 ++ m :: ms2) =
      (evs1 ++ [Event.preSend m, Event.remoteCall f rs raw],
       .error PyError.clientError) := by
  have hsend : _send env false m =
      ([Event.preSend m, Event.remoteCall f rs raw],
       .error PyError.clientError) := by
    unfold _send
    rw [sendRest_clientError env false m f rs raw h1 h2 h3 h4 h5]
    rfl
  have hloop : sendLoop env false (m :: ms2) =
      ([Event.preSend m, Event.remoteCall f rs raw],
       .error PyError.clientError) :=
    sendLoop_cons_error env false m ms2 _ _ hsend
  have happ := sendLoop_append_error env false ms1 (m :: ms2) evs1 n1 _
    PyError.clientError hms1 hloop
  exact send_messages_eq_of_loop_error env false (ms1 ++ m :: ms2) _ _
    (by simp) happ

/-- Witness for C2 at a concrete batch: with `fail_silently = false` the
`ClientError` on `msgA` escapes, and the trailing `msgB` contributes no
events — in particular its pre-send never fires. -/
theorem c2_fail_silently_false_aborts_witness :
    send_messages envClientErr false ([msgB] ++ msgA :: [msgB]) =
      ([Event.preSend msgB] ++
       [Event.preSend msgA,
        Event.remoteCall "alice@example.com"
          ["bob@example.com", "carol@example.com"]
          ("alice@example.com" ++ "\r\n" ++ "body")],
       .error PyError.clientError) :=
  c2_fail_silently_false_aborts envClientErr msgA "alice@example.com"
    ["bob@example.com", "carol@example.com"]
    ("alice@example.com" ++ "\r\n" ++ "body")
    [msgB] [msgB] [Event.preSend msgB] 0
    (by decide) rfl rfl rfl rfl rfl

/-- C3: When `fail_silently` is true, a remote client error on message k of
a batch is swallowed (`_send` returns false), the following messages are
still attempted, and `send_messages` returns the count of messages that
succeeded, excluding k. -/
theorem c3_fail_silently_true_continues (env : Env) (m : Msg)
    (f : String) (rs : List String) (raw : String)
    (ms1 ms2 : List Msg) (evs1 evs2 : List Event) (n1 n2 : Nat)
    (h1 : m.recipients ≠ [])
    (h2 : env.sanitize m.from_email m.encoding = .ok f)
    (h3 : m.recipients.mapM (fun addr => env.sanitize addr m.encoding) = .ok rs)
    (h4 : env.serialize m "\r\n" = .ok raw)
    (h5 : env.send_raw_email f rs raw = .error PyError.clientError)
    (hms1 : sendLoop env true ms1 = (evs1, .ok n1))
    (hms2 : sendLoop env true ms2 = (evs2, .ok n2)) :
    _send env true m =
      ([Event.preSend m, Event.remoteCall f rs raw], .ok false)
    ∧ send_messages env true (ms1 ++ m :: ms2) =
        (evs1 ++ ([Event.preSend m, Event.remoteCall f rs raw] ++ evs2),
         .ok (some (n1 + n2))) := by
  have hsend : _send env true m =
      ([Event.preSend m, Event.remoteCall f rs raw], .ok false) := by
    unfold _send
    rw [sendRest_clientError env true m f rs raw h1 h2 h3 h4 h5]
    rfl
  refine ⟨hsend, ?_⟩
  have hloop : sendLoop env true (m :: ms2) =
      ([Event.preSend m, Event.remoteCall f rs raw] ++ evs2, .ok n2) := by
    rw [sendLoop_cons_ok env true m ms2 _ evs2 false n2 hsend hms2]
    simp
  have happ := sendLoop_append_ok env true ms1 (m :: ms2) evs1 n1 _ n2 hms1 hloop
  exact send_messages_eq_of_loop_ok env true (ms1 ++ m :: ms2) _ _
    (by simp) happ

/-- Witness for C3 at a concrete batch: `msgA` succeeds, `msgC` hits a
`ClientError` that is swallowed, the second `msgA` is still attempted and
succeeds; the count is 2, excluding `msgC`. -/
theorem c3_fail_silently_true_continues_witness :
    send_messages envSelective true ([msgA] ++ msgC :: [msgA]) =
      ([Event.preSend msgA,
        Event.remoteCall "alice@example.com"
          ["bob@example.com", "carol@example.com"]
          ("alice@example.com" ++ "\r\n" ++ "body"),
        Event.postSend msgA "abc123"] ++
       ([Event.preSend msgC,
         Event.remoteCall "alice@example.com" ["dave@example.com"]
           ("alice@example.com" ++ "\r\n" ++ "body")] ++
        [Event.preSend msgA,
         Event.remoteCall "alice@example.com"
           ["bob@example.com", "carol@example.com"]
           ("alice@example.com" ++ "\r\n" ++ "body"),
         Event.postSend msgA "abc123"]),
       .ok (some (1 + 1))) :=
  (c3_fail_silently_true_continues envSelective msgC "alice@example.com"
    ["dave@example.com"] ("alice@example.com" ++ "\r\n" ++ "body")
    [msgA] [msgA]
    [Event.preSend msgA,
     Event.remoteCall "alice@example.com"
       ["bob@example.com", "carol@example.com"]
       ("alice@example.com" ++ "\r\n" ++ "body"),
     Event.postSend msgA "abc123"]
    [Event.preSend msgA,
     Event.remoteCall "alice@example.com"
       ["bob@example.com", "carol@example.com"]
       ("alice@example.com" ++ "\r\n" ++ "body"),
     Event.postSend msgA "abc123"]
    1 1 (by decide) rfl rfl rfl rfl rfl rfl).2

/-- C4 counterexample: a sanitization failure (`ValueError` from
`sanitize_address`) is not caught at the per-message try/except — it
escapes `_send` even with `fail_silently = true`, refuting the claim that
every failure in the send path is caught at that boundary. -/
theorem c4_counterexample :
    (_send envBadSanitize true msgA).2 = Except.error (PyError.other "ValueError")
    ∧ (_send envNoMsgId true msgA).2 = Except.error (PyError.keyError "MessageId") := by
  exact ⟨rfl, rfl⟩

/-- C4 amended: the per-message try/except wraps only the remote call and
the response handling, and catches only `ClientError`.  A failure in
sender sanitization, recipient sanitization or serialization occurs before
the `try` and escapes `_send` uncaught; a non-`ClientError` failure of the
remote call and the `KeyError` from a `MessageId`-less response escape
uncaught as well — all regardless of `fail_silently`.  Only a
`ClientError` from the remote call is caught: re-raised when
`fail_silently` is false, swallowed into a `False` return when true. -/
theorem c4_amended_catch_boundary (env : Env) (fail_silently : Bool) (m : Msg)
    (f : String) (rs : List String) (raw : String) (e : PyError)
    (result : List (String × String))
    (h1 : m.recipients ≠ []) :
    (env.sanitize m.from_email m.encoding = .error e →
      _send env fail_silently m = ([Event.preSend m], .error e))
    ∧ (env.sanitize m.from_email m.encoding = .ok f →
       m.recipients.mapM (fun addr => env.sanitize addr m.encoding) = .error e →
       _send env fail_silently m = ([Event.preSend m], .error e))
    ∧ (env.sanitize m.from_email m.encoding = .ok f →
       m.recipients.mapM (fun addr => env.sanitize addr m.encoding) = .ok rs →
       env.serialize m "\r\n" = .error e →
       _send env fail_silently m = ([Event.preSend m], .error e))
    ∧ (env.sanitize m.from_email m.encoding = .ok f →
       m.recipients.mapM (fun addr => env.sanitize addr m.encoding) = .ok rs →
       env.serialize m "\r\n" = .ok raw →
       env.send_raw_email f rs raw = .error e →
       e ≠ PyError.clientError →
       _send env fail_silently m =
         ([Event.preSend m, Event.remoteCall f rs raw], .error e))
    ∧ (env.sanitize m.from_email m.encoding = .ok f →
       m.recipients.mapM (fun addr => env.sanitize addr m.encoding) = .ok rs →
       env.serialize m "\r\n" = .ok raw →
       env.send_raw_email f rs raw = .ok result →
       result.lookup "MessageId" = none →
       _send env fail_silently m =
         ([Event.preSend m, Event.remoteCall f rs raw],
          .error (PyError.keyError "MessageId")))
    ∧ (env.sanitize m.from_email m.encoding = .ok f →
       m.recipients.mapM (fun addr => env.sanitize addr m.encoding) = .ok rs →
       env.serialize m "\r\n" = .ok raw →
       env.send_raw_email f rs raw = .error PyError.clientError →
       _send env fail_silently m =
         ([Event.preSend m, Event.remoteCall f rs raw],
          if fail_silently then Except.ok false
          else Except.error PyError.clientError)) := by
  refine ⟨?_, ?_, ?_, ?_, ?_, ?_⟩
  · intro h2
    unfold _send
    rw [sendRest_sanitizeError env fail_silently m e h1 h2]
  · intro h2 h3
    unfold _send
    rw [sendRest_recipientError env fail_silently m f e h1 h2 h3]
  · intro h2 h3 h4
    unfold _send
    rw [sendRest_serializeError env fail_silently m f rs e h1 h2 h3 h4]
  · intro h2 h3 h4 h5 he
    unfold _send
    rw [sendRest_remoteOtherError env fail_silently m f rs raw e h1 h2 h3 h4 h5 he]
  · intro h2 h3 h4 h5 h6
    unfold _send
    rw [sendRest_keyError env fail_silently m f rs raw result h1 h2 h3 h4 h5 h6]
  · intro h2 h3 h4 h5
    unfold _send
    rw [sendRest_clientError env fail_silently m f rs raw h1 h2 h3 h4 h5]

/-- Witness for the amended C4: with `fail_silently = true`, a sanitize
`ValueError` and a response-handling `KeyError` escape `_send`, while a
remote `ClientError` is swallowed into a `False` return. -/
theorem c4_amended_catch_boundary_witness :
    _send envBadSanitize true msgA =
      ([Event.preSend msgA], .error (PyError.other "ValueError"))
    ∧ _send envNoMsgId true msgA =
        ([Event.preSend msgA,
          Event.remoteCall "alice@example.com"
            ["bob@example.com", "carol@example.com"]
            ("alice@example.com" ++ "\r\n" ++ "body")],
         .error (PyError.keyError "MessageId"))
    ∧ _send envClientErr true msgA =
        ([Event.preSend msgA,
          Event.remoteCall "alice@example.com"
            ["bob@example.com", "carol@example.com"]
            ("alice@example.com" ++ "\r\n" ++ "body")],
         Except.ok false) :=
  ⟨(c4_amended_catch_boundary envBadSanitize true msgA "" [] ""
      (PyError.other "ValueError") [] (by decide)).1 rfl,
   (c4_amended_catch_boundary envNoMsgId true msgA "alice@example.com"
      ["bob@example.com", "carol@example.com"]
      ("alice@example.com" ++ "\r\n" ++ "body")
      PyError.clientError [("RequestId", "r-1")] (by decide)).2.2.2.2.1
     rfl rfl rfl rfl rfl,
   (c4_amended_catch_boundary envClientErr true msgA "alice@example.com"
      ["bob@example.com", "carol@example.com"]
      ("alice@example.com" ++ "\r\n" ++ "body")
      PyError.clientError [] (by decide)).2.2.2.2.2
     rfl rfl rfl rfl⟩

/-- C5 counterexample: with `fail_silently = false`, a remote client error
on the first message aborts the batch — the second message is never
attempted (its pre-send never fires), refuting "a failure on one message
never prevents attempts on the subsequent messages, for either value of
fail_silently". -/
theorem c5_counterexample :
    (send_messages envClientErr false [msgA, msgB]).2 =
      Except.error PyError.clientError
    ∧ Event.preSend msgB ∉ (send_messages envClientErr false [msgA, msgB]).1 := by
  refine ⟨rfl, ?_⟩
  decide

/-- C5 amended: `send_messages` iterates the messages in input order, and
whenever every `_send` returns normally — which includes per-message
failures swallowed as a `False` return (no recipients, or a remote client
error with `fail_silently = true`) — every message of the batch is
attempted: the trace is the concatenation of the per-message traces in
input order and contains each message's pre-send.  A message whose `_send`
returns normally (even `False`) never prevents the attempt on the
subsequent messages.  (With `fail_silently = false` a remote client error
escapes `_send` and the remaining messages are not attempted.) -/
theorem c5_amended_iteration (env : Env) (fail_silently : Bool)
    (ms : List Msg) (evs : List Event) (n : Nat)
    (h : sendLoop env fail_silently ms = (evs, .ok n)) :
    evs = (ms.map (fun m => (_send env fail_silently m).1)).flatten
    ∧ (∀ m ∈ ms, Event.preSend m ∈ evs)
    ∧ ∀ (m' : Msg) (rest : List Msg) (evs' : List Event) (b : Bool),
        _send env fail_silently m' = (evs', .ok b) →
        (sendLoop env fail_silently (m' :: rest)).1 =
          evs' ++ (sendLoop env fail_silently rest).1 := by
  have hpre : ∀ m' : Msg, Event.preSend m' ∈ (_send env fail_silently m').1 := by
    intro m'
    unfold _send
    exact List.mem_cons_self _ _
  have hjoin : ∀ (ms' : List Msg) (evs' : List Event) (n' : Nat),
      sendLoop env fail_silently ms' = (evs', .ok n') →
      evs' = (ms'.map (fun m => (_send env fail_silently m).1)).flatten := by
    intro ms'
    induction ms' with
    | nil =>
      intro evs' n' h'
      simp only [sendLoop] at h'
      obtain ⟨rfl, -⟩ := Prod.mk.injEq .. ▸ h'
      rfl
    | cons m rest ih =>
      intro evs' n' h'
      simp only [sendLoop] at h'
      cases hm : _send env fail_silently m with
      | mk evsm r =>
        rw [hm] at h'
        cases r with
        | error e => simp at h'
        | ok b =>
          cases hl : sendLoop env fail_silently rest with
          | mk evs2 r2 =>
            rw [hl] at h'
            cases r2 with
            | error e => simp at h'
            | ok n2 =>
              simp only [Prod.mk.injEq, Except.ok.injEq] at h'
              obtain ⟨rfl, rfl⟩ := h'
              simp only [List.map_cons, List.flatten_cons]
              rw [← ih evs2 n2 hl, hm]
  refine ⟨hjoin ms evs n h, ?_, ?_⟩
  · intro m hmem
    rw [hjoin ms evs n h]
    exact List.mem_flatten.mpr ⟨(_send env fail_silently m).1,
      List.mem_map_of_mem _ hmem, hpre m⟩
  · intro m' rest evs' b hm'
    simp only [sendLoop, hm']
    cases hr : sendLoop env fail_silently rest with
    | mk evs2 r2 =>
      cases r2 <;> simp

/-- Witness for the amended C5 at a concrete batch: in
`[msgA, msgB]` with `fail_silently = true` both messages are attempted —
in particular `msgB`'s pre-send appears in the trace even though `msgA`
came first. -/
theorem c5_amended_iteration_witness :
    Event.preSend msgB ∈
      [Event.preSend msgA,
       Event.remoteCall "alice@example.com"
         ["bob@example.com", "carol@example.com"]
         ("alice@example.com" ++ "\r\n" ++ "body"),
       Event.postSend msgA "abc123",
       Event.preSend msgB] :=
  (c5_amended_iteration testEnv true [msgA, msgB]
    [Event.preSend msgA,
     Event.remoteCall "alice@example.com"
       ["bob@example.com", "carol@example.com"]
       ("alice@example.com" ++ "\r\n" ++ "body"),
     Event.postSend msgA "abc123",
     Event.preSend msgB]
    1 rfl).2.1 msgB (by decide)

/-- C6: For every message with zero resolved recipients, `_send` fires the
pre-send notification exactly once, makes no remote call, fires no
post-send notification, and returns false, so the message is counted as
not sent (a singleton batch returns count 0); moreover the pre-send
notification is the first event of `_send` for every message,
unconditionally. -/
theorem c6_no_recipients (env : Env) (fail_silently : Bool) (m : Msg)
    (h : m.recipients = []) :
    _send env fail_silently m = ([Event.preSend m], .ok false)
    ∧ send_messages env fail_silently [m] = ([Event.preSend m], .ok (some 0))
    ∧ ∀ m' : Msg, (_send env fail_silently m').1.head? = some (Event.preSend m') := by
  have hsend : _send env fail_silently m = ([Event.preSend m], .ok false) := by
    unfold _send
    rw [sendRest_noRecipients env fail_silently m h]
  refine ⟨hsend, ?_, ?_⟩
  · have hone := sendLoop_singleton_ok env fail_silently m _ false hsend
    exact send_messages_eq_of_loop_ok env fail_silently [m] _ _ (by simp) hone
  · intro m'
    unfold _send
    rfl

/-- Witness for C6 at the recipient-less `msgB`: only its pre-send fires,
it returns false, a singleton batch counts 0, and the pre-send is the
first event also for the recipient-ful `msgA`. -/
theorem c6_no_recipients_witness :
    _send testEnv true msgB = ([Event.preSend msgB], .ok false)
    ∧ send_messages testEnv true [msgB] = ([Event.preSend msgB], .ok (some 0))
    ∧ (_send testEnv true msgA).1.head? = some (Event.preSend msgA) :=
  ⟨(c6_no_recipients testEnv true msgB rfl).1,
   (c6_no_recipients testEnv true msgB rfl).2.1,
   (c6_no_recipients testEnv true msgB rfl).2.2 msgA⟩

/-- C7 counterexample: for the empty input sequence `send_messages` does
not return an integer count — the guard `if not email_messages: return`
returns `None` (`.ok none`), refuting "for every input sequence, including
the empty one, send_messages returns an integer count". -/
theorem c7_counterexample :
    send_messages testEnv true [] = ([], Except.ok none)
    ∧ ¬ ∃ k : Nat, (send_messages testEnv true []).2 = Except.ok (some k) := by
  refine ⟨rfl, ?_⟩
  rintro ⟨k, hk⟩
  simp [send_messages] at hk

/-- C7 amended: for every non-empty input sequence on which no exception
escapes, `send_messages` returns the integer count of messages
successfully delivered; for the empty input sequence it returns
immediately with no per-message processing and no notifications fired,
but with `None` rather than an integer count. -/
theorem c7_amended_return (env : Env) (fail_silently : Bool) :
    send_messages env fail_silently [] = ([], .ok none)
    ∧ ∀ (m : Msg) (rest : List Msg) (evs : List Event) (n : Nat),
        sendLoop env fail_silently (m :: rest) = (evs, .ok n) →
        send_messages env fail_silently (m :: rest) = (evs, .ok (some n)) := by
  refine ⟨rfl, ?_⟩
  intro m rest evs n h
  exact send_messages_eq_of_loop_ok env fail_silently (m :: rest) evs n
    (by simp) h

/-- Witness for the amended C7: the empty batch returns `None` with no
events, while the singleton batch `[msgB]` returns the integer count 0. -/
theorem c7_amended_return_witness :
    send_messages testEnv true [] = ([], Except.ok none)
    ∧ send_messages testEnv true [msgB] =
        ([Event.preSend msgB], Except.ok (some 0)) :=
  ⟨(c7_amended_return testEnv true).1,
   (c7_amended_return testEnv true).2 msgB [] [Event.preSend msgB] 0 rfl⟩

/-- C8: Region resolution at construction follows the precedence: an
explicit `region_name` constructor argument is used if given; otherwise
the process-wide setting `DJANGO_AMAZON_SES_REGION` is used if present;
otherwise the literal default "us-east-1" is used — as witnessed by the
region carried by the single `boto3.client` call of `__init__`. -/
theorem c8_region_precedence
    (mkClient : String → String → String → Except PyError ClientHandle)
    (fail_silently : Bool) (r sr : String) (s : Settings) :
    (emailBackendInit mkClient (some r) s fail_silently).1 =
      [InitEvent.createClient "ses" r
        s.aws_access_key_id s.aws_secret_access_key]
    ∧ (emailBackendInit mkClient none
        { s with django_amazon_ses_region := some sr } fail_silently).1 =
      [InitEvent.createClient "ses" sr
        s.aws_access_key_id s.aws_secret_access_key]
    ∧ (emailBackendInit mkClient none
        { s with django_amazon_ses_region := none } fail_silently).1 =
      [InitEvent.createClient "ses" "us-east-1"
        s.aws_access_key_id s.aws_secret_access_key] :=
  ⟨rfl, rfl, rfl⟩

/-- C9: Construction calls `boto3.client` exactly once per backend
instance; if the call succeeds the constructed backend holds exactly that
(non-null) handle in `conn` for its lifetime, and if it raises a
configuration error the construction fails with that error for every value
of `fail_silently` — the flag never silences construction failures. -/
theorem c9_client_once
    (mkClient : String → String → String → Except PyError ClientHandle)
    (region_name : Option String) (s : Settings) (fail_silently : Bool)
    (c : ClientHandle) (e : PyError) :
    (emailBackendInit mkClient region_name s fail_silently).1.length = 1
    ∧ (mkClient (resolve_region region_name s)
         s.aws_access_key_id s.aws_secret_access_key = .ok c →
       (emailBackendInit mkClient region_name s fail_silently).2 =
         .ok { conn := c, fail_silently := fail_silently })
    ∧ (mkClient (resolve_region region_name s)
         s.aws_access_key_id s.aws_secret_access_key = .error e →
       ∀ fs' : Bool,
         (emailBackendInit mkClient region_name s fs').2 = .error e) := by
  refine ⟨rfl, ?_, ?_⟩
  · intro h
    simp only [emailBackendInit, h]
  · intro h fs'
    simp only [emailBackendInit, h]

/-- Witness for C9: a succeeding `boto3.client` stand-in yields a backend
holding its handle after exactly one creation call, and a failing one
makes construction raise the same configuration error with
`fail_silently = false`. -/
theorem c9_client_once_witness :
    (emailBackendInit mkClientOk (some "eu-west-1") testSettings true).1.length = 1
    ∧ (emailBackendInit mkClientOk (some "eu-west-1") testSettings true).2 =
        .ok { conn := "ses-client", fail_silently := true }
    ∧ (emailBackendInit mkClientErr (some "eu-west-1") testSettings true).2 =
        .error (PyError.other "NoRegionError") :=
  ⟨(c9_client_once mkClientOk (some "eu-west-1") testSettings true
      "ses-client" PyError.clientError).1,
   (c9_client_once mkClientOk (some "eu-west-1") testSettings true
      "ses-client" PyError.clientError).2.1 rfl,
   (c9_client_once mkClientErr (some "eu-west-1") testSettings false
      "ses-client" (PyError.other "NoRegionError")).2.2 rfl true⟩

/-- C10: If the remote `send_raw_email` call returns successfully but its
response contains no `MessageId` key, `_send` raises an uncaught
`KeyError` regardless of the `fail_silently` flag, no post-send
notification fires for that message, and the remaining messages of the
batch are never attempted (the batch trace ends with the failing message's
events and is independent of the messages after it). -/
theorem c10_missing_message_id (env : Env) (fail_silently : Bool) (m : Msg)
    (f : String) (rs : List String) (raw : String)
    (result : List (String × String))
    (ms1 ms2 : List Msg) (evs1 : List Event) (n1 : Nat)
    (h1 : m.recipients ≠ [])
    (h2 : env.sanitize m.from_email m.encoding = .ok f)
    (h3 : m.recipients.mapM (fun addr => env.sanitize addr m.encoding) = .ok rs)
    (h4 : env.serialize m "\r\n" = .ok raw)
    (h5 : env.send_raw_email f rs raw = .ok result)
    (h6 : result.lookup "MessageId" = none)
    (hms1 : sendLoop env fail_silently ms1 = (evs1, .ok n1)) :
    _send env fail_silently m =
      ([Event.preSend m, Event.remoteCall f rs raw],
       .error (PyError.keyError "MessageId"))
    ∧ send_messages env fail_silently (ms1 ++ m :: ms2) =
        (evs1 ++ [Event.preSend m, Event.remoteCall f rs raw],
         .error (PyError.keyError "MessageId")) := by
  have hsend : _send env fail_silently m =
      ([Event.preSend m, Event.remoteCall f rs raw],
       .error (PyError.keyError "MessageId")) := by
    unfold _send
    rw [sendRest_keyError env fail_silently m f rs raw result h1 h2 h3 h4 h5 h6]
  refine ⟨hsend, ?_⟩
  have hloop := sendLoop_cons_error env fail_silently m ms2 _ _ hsend
  have happ := sendLoop_append_error env fail_silently ms1 (m :: ms2) evs1 n1 _
    (PyError.keyError "MessageId") hms1 hloop
  exact send_messages_eq_of_loop_error env fail_silently (ms1 ++ m :: ms2) _ _
    (by simp) happ

/-- Witness for C10: against an SES stand-in whose response lacks
`MessageId`, the batch `[msgA, msgB]` with `fail_silently = true` raises
the `KeyError`, fires no post-send, and never attempts `msgB`. -/
theorem c10_missing_message_id_witness :
    send_messages envNoMsgId true ([] ++ msgA :: [msgB]) =
      ([] ++ [Event.preSend msgA,
        Event.remoteCall "alice@example.com"
          ["bob@example.com", "carol@example.com"]
          ("alice@example.com" ++ "\r\n" ++ "body")],
       .error (PyError.keyError "MessageId")) :=
  (c10_missing_message_id envNoMsgId true msgA "alice@example.com"
    ["bob@example.com", "carol@example.com"]
    ("alice@example.com" ++ "\r\n" ++ "body")
    [("RequestId", "r-1")] [] [msgB] [] 0
    (by decide) rfl rfl rfl rfl rfl rfl).2
